import Mathlib

/-!
Shallow embedding of `enthought/mayavi/tools/figure.py`.

The module manages figure/scene lifecycle on top of an external
visualization engine.  We model:

* the engine's observable surface (`Engine`): a list of scene objects
  (`SceneObj`, each with a `name`, an optionally attached renderer scene
  `scene : Option VTKScene`, and a `children` list) together with an
  optional current scene (represented as an index into `scenes`);
* the process-wide set of allocated scene numbers
  (`__scene_number_list`), as a `Finset ℤ`;
* the five module functions `figure`, `gcf`, `clf`, `draw`, `savefig`.

External calls are embedded as follows: `engine.new_scene` appends a
fresh scene object (supplied as an explicit `fresh` argument, since its
contents are produced by the external engine) and makes it current;
`scene.save` is recorded as an emitted `SaveCall`; camera calls
(`isometric_view` / `view(40, 50)`) and the `size` argument are pure
external-engine effects with no observable state in this module and are
not modelled.  `get_engine()` (the `engine=None` default) and the
`options` object live in `engine_manager`, outside this file's source;
all claims quantify over the engine and options, so they are passed as
explicit parameters.  Python `AttributeError` control flow is embedded
with `Except` / partial-state results where a claim depends on it.

Colors are opaque tokens (an RGB-like triple of naturals); the module
only moves them around, never computes with them.
-/

/-- Opaque color values (the module never inspects them). -/
abbrev Color := ℕ × ℕ × ℕ

/-- The renderer scene attached to a figure object (`fig.scene`):
the attributes read or written by this module. -/
structure VTKScene where
  background : Color
  foreground : Color
  disable_render : Bool
  deriving DecidableEq

/-- An engine-level scene ("figure") object: `engine.scenes` entries.
`scene` is the attached renderer scene, which may be `None`. -/
structure SceneObj where
  name : String
  scene : Option VTKScene
  children : List ℕ
  deriving DecidableEq

/-- The observable surface of the external mayavi engine.
`current_scene` is an index into `scenes` (`none` = Python `None`);
using an index models Python aliasing between `engine.current_scene`
and the entry of `engine.scenes`. -/
structure Engine where
  scenes : List SceneObj
  current_scene : Option ℕ
  deriving DecidableEq

/-- The `options` object from `engine_manager` (only the two fields this
module reads). -/
structure MlabOptions where
  background_color : Color
  foreground_color : Color
  deriving DecidableEq

/-- In-place update of the scene object at index `i`
(models Python attribute mutation on a list element). -/
def updateAt {α : Type} (l : List α) (i : ℕ) (f : α → α) : List α :=
  match l, i with
  | [], _ => []
  | x :: xs, 0 => f x :: xs
  | x :: xs, n + 1 => x :: updateAt xs n f

/-- `engine.new_scene(...)`: the external engine appends the freshly
created scene object and makes it the current scene. -/
def Engine.new_scene (e : Engine) (fresh : SceneObj) : Engine :=
  ⟨e.scenes ++ [fresh], some e.scenes.length⟩

/-- Mutate the scene object at index `i` (no-op when out of range,
which never happens on the paths the module takes). -/
def Engine.setSceneAt (e : Engine) (i : ℕ) (f : SceneObj → SceneObj) : Engine :=
  ⟨updateAt e.scenes i f, e.current_scene⟩

/-- `engine.current_scene.name = name`. -/
def Engine.setCurrentName (e : Engine) (nm : String) : Engine :=
  match e.current_scene with
  | none => e
  | some i => e.setSceneAt i (fun so => { so with name := nm })

/-- The initial value of `__scene_number_list`: `set((0,))`. -/
def sceneNumberListInit : Finset ℤ := {0}

/-- Python `max(s)` on the (always nonempty) scene-number set. -/
def maxSNL (s : Finset ℤ) : ℤ := s.max.unbot' 0

/-- The number `figure` assigns on the auto-naming path:
`max(__scene_number_list) + 1`. -/
def autoNumber (s : Finset ℤ) : ℤ := maxSNL s + 1

/-- The string `'Mayavi Scene %d' % n`. -/
def mayaviSceneName (n : ℤ) : String := "Mayavi Scene " ++ toString n

/-- The `name` argument of `figure`: a string, or an integer
(any of the accepted int types). -/
inductive FigName
  | str (s : String)
  | int (n : ℤ)
  deriving DecidableEq

/-- Name normalisation in `figure`: an integer `n` becomes
`'Mayavi Scene %d' % n`; a string is left as is (`str(name)` is the
identity on strings). -/
def normName : FigName → String
  | .str s => s
  | .int n => mayaviSceneName n

/-- The update `figure` applies to `__scene_number_list` when given an
explicit name: an integer is recorded, a string is not. -/
def nameSnlUpdate : FigName → Finset ℤ → Finset ℤ
  | .str _, s => s
  | .int n, s => insert n s

/-- The `for scene in engine.scenes` search: index of the first scene
whose `name` equals the normalised name. -/
def findSceneLoop (scenes : List SceneObj) (nm : String) : Option ℕ :=
  match scenes with
  | [] => none
  | sc :: rest =>
      if sc.name = nm then some 0 else (findSceneLoop rest nm).map (· + 1)

/-- The tail of `figure` (lines 71-85): `fig = engine.current_scene;
scene = fig.scene; if scene is not None:` default and set the
background and foreground colors.  The camera call that follows is an
external-engine effect with no state in this module. -/
def applyColors (opts : MlabOptions) (bgcolor fgcolor : Option Color)
    (e : Engine) : Engine :=
  match e.current_scene with
  | none => e
  | some i =>
      match e.scenes[i]? with
      | none => e
      | some fig =>
          match fig.scene with
          | none => e
          | some sc =>
              let bg := bgcolor.getD opts.background_color
              let fg := fgcolor.getD opts.foreground_color
              e.setSceneAt i (fun so =>
                { so with scene := some { sc with background := bg, foreground := fg } })

/-- The creation path shared by the `name=None` branch and the
no-existing-scene branch: `engine.new_scene(...)`, then
`engine.current_scene.name = name`, then the color/camera tail. -/
def createScene (opts : MlabOptions) (bgcolor fgcolor : Option Color)
    (engine : Engine) (fresh : SceneObj) (nm : String) : Engine :=
  applyColors opts bgcolor fgcolor ((engine.new_scene fresh).setCurrentName nm)

/-- Result of a call to `figure`: the engine and scene-number set after
the call, the returned scene (as an index), and whether
`engine.new_scene` was invoked. -/
structure FigureResult where
  engine : Engine
  snl : Finset ℤ
  ret : Option ℕ
  newSceneCalled : Bool
  deriving DecidableEq

/-- `figure(name, bgcolor, fgcolor, engine, size)`.  `snl` is the
current value of `__scene_number_list`; `fresh` is the scene object the
external engine would create in `new_scene`. -/
def figure (opts : MlabOptions) (name : Option FigName)
    (bgcolor fgcolor : Option Color) (engine : Engine) (fresh : SceneObj)
    (snl : Finset ℤ) : FigureResult :=
  match name with
  | none =>
      let n := autoNumber snl
      let snl1 := insert n snl
      let e2 := createScene opts bgcolor fgcolor engine fresh (mayaviSceneName n)
      ⟨e2, snl1, e2.current_scene, true⟩
  | some arg =>
      let nm := normName arg
      let snl1 := nameSnlUpdate arg snl
      match findSceneLoop engine.scenes nm with
      | some i => ⟨{ engine with current_scene := some i }, snl1, some i, false⟩
      | none =>
          let e2 := createScene opts bgcolor fgcolor engine fresh nm
          ⟨e2, snl1, e2.current_scene, true⟩

/-- `gcf(engine)`: the current scene, or `figure(engine=engine)` when
there is none. -/
def gcf (opts : MlabOptions) (e : Engine) (fresh : SceneObj)
    (snl : Finset ℤ) : FigureResult :=
  match e.current_scene with
  | some i => ⟨e, snl, some i, false⟩
  | none => figure opts none none none e fresh snl

/-- An arbitrary Python object passed to `clf` as the `figure` argument,
at the granularity of the attribute accesses `clf` performs.  Outer
`none` on `scene` means the attribute is missing; `some none` means it
is `None`.  `none` on `children` means that attribute is missing. -/
structure ClfTarget where
  scene : Option (Option VTKScene)
  children : Option (List ℕ)
  deriving DecidableEq

/-- Python exceptions relevant to this module. -/
inductive PyErr
  | attributeError
  deriving DecidableEq

/-- The `try` body of `clf` on a supplied target: set `disable_render`,
clear `children`, reset `disable_render`.  An `error` carries the state
the target had reached when the `AttributeError` was raised. -/
def clfTry (t : ClfTarget) : Except (PyErr × ClfTarget) ClfTarget :=
  match t.scene with
  | none => .error (.attributeError, t)
  | some none => .error (.attributeError, t)
  | some (some sc) =>
      let t1 := { t with scene := some (some { sc with disable_render := true }) }
      match t1.children with
      | none => .error (.attributeError, t1)
      | some _ =>
          let t2 := { t1 with children := some ([] : List ℕ) }
          .ok { t2 with scene := some (some { sc with disable_render := false }) }

/-- `clf(figure)` with a supplied figure: the `try` body with
`AttributeError` swallowed (`except AttributeError: pass`). -/
def clfOn (t : ClfTarget) : ClfTarget :=
  match clfTry t with
  | .ok s => s
  | .error (.attributeError, s) => s

/-- The `disable_render` flag of a target's attached scene, when the
`scene` attribute is present and not `None`. -/
def ClfTarget.renderFlag (t : ClfTarget) : Option Bool :=
  match t.scene with
  | some (some sc) => some sc.disable_render
  | _ => none

/-- The clearing sequence of `clf` applied to an engine-resident scene
object (which always has `children`); no-op when no renderer scene is
attached (the `AttributeError` is swallowed before `children` is
touched). -/
def clearSceneObj (so : SceneObj) : SceneObj :=
  match so.scene with
  | none => so
  | some sc =>
      { so with
        scene := some { sc with disable_render := false }
        children := [] }

/-- State after a top-level call (engine plus scene-number set). -/
structure TopResult where
  engine : Engine
  snl : Finset ℤ
  deriving DecidableEq

/-- `clf(figure)` at top level: with `figure=None` the target is
`gcf()`; the target scene object is then cleared in place. -/
def clfTop (opts : MlabOptions) (e : Engine) (fresh : SceneObj)
    (snl : Finset ℤ) (fig : Option ℕ) : TopResult :=
  match fig with
  | some i => ⟨e.setSceneAt i clearSceneObj, snl⟩
  | none =>
      let r := gcf opts e fresh snl
      match r.ret with
      | none => ⟨r.engine, r.snl⟩
      | some i => ⟨r.engine.setSceneAt i clearSceneObj, r.snl⟩

/-- `draw(figure)`: `figure.render()` is an external-engine effect;
with `figure=None` the target is `gcf()`. -/
def draw (opts : MlabOptions) (e : Engine) (fresh : SceneObj)
    (snl : Finset ℤ) (fig : Option ℕ) : TopResult :=
  match fig with
  | some _ => ⟨e, snl⟩
  | none =>
      let r := gcf opts e fresh snl
      ⟨r.engine, r.snl⟩

/-- The single call `savefig` makes to `figure.scene.save`. -/
structure SaveCall where
  filename : String
  size : Option (ℕ × ℕ)
  kwargs : List (String × String)
  deriving DecidableEq

/-- Result of `savefig`: `saved = none` means `figure.scene` was `None`
or absent, so the attribute access raised and no save call was made
(the error propagates, unguarded). -/
structure SaveResult where
  engine : Engine
  snl : Finset ℤ
  saved : Option SaveCall
  deriving DecidableEq

/-- The figure `savefig` operates on: the supplied one, or `gcf()` when
`figure=None`. -/
def savefigTarget (opts : MlabOptions) (e : Engine) (fresh : SceneObj)
    (snl : Finset ℤ) (fig : Option ℕ) : FigureResult :=
  match fig with
  | some i => ⟨e, snl, some i, false⟩
  | none => gcf opts e fresh snl

/-- The renderer scene of the figure a `FigureResult` returned
(`figure.scene`). -/
def retScene (r : FigureResult) : Option VTKScene :=
  match r.ret with
  | none => none
  | some i =>
      match r.engine.scenes[i]? with
      | none => none
      | some fig => fig.scene

/-- `savefig(filename, size, figure, **kwargs)`: default the figure via
`gcf()` when `figure=None`, then call `figure.scene.save(filename,
size=size, **kwargs)` exactly once; when `figure.scene` is `None` or
missing the attribute access raises and no save call is made. -/
def savefig (opts : MlabOptions) (filename : String)
    (size : Option (ℕ × ℕ)) (kwargs : List (String × String)) (e : Engine)
    (fresh : SceneObj) (snl : Finset ℤ) (fig : Option ℕ) : SaveResult :=
  let r := savefigTarget opts e fresh snl fig
  match retScene r with
  | none => ⟨r.engine, r.snl, none⟩
  | some _ => ⟨r.engine, r.snl, some ⟨filename, size, kwargs⟩⟩

/-- One call in a sequence of `figure` invocations, as far as the
scene-number set is concerned: auto-named (`name=None`) or explicitly
integer-named. -/
inductive FigCall
  | auto
  | named (n : ℤ)
  deriving DecidableEq

/-- Effect of one `figure` call on `__scene_number_list`. -/
def snlStep : FigCall → Finset ℤ → Finset ℤ
  | .auto, s => insert (autoNumber s) s
  | .named n, s => insert n s

/-- Run a sequence of `figure` calls from scene-number set `s`,
collecting the numbers assigned by the auto-named calls. -/
def runCalls : List FigCall → Finset ℤ → List ℤ × Finset ℤ
  | [], s => ([], s)
  | c :: cs, s =>
      let rest := runCalls cs (snlStep c s)
      match c with
      | .auto => (autoNumber s :: rest.1, rest.2)
      | .named _ => rest

/-- The colors of the scene attached to the scene object at index `i`. -/
def sceneColorsAt (e : Engine) (i : ℕ) : Option (Color × Color) :=
  match e.scenes[i]? with
  | none => none
  | some fig =>
      match fig.scene with
      | none => none
      | some sc => some (sc.background, sc.foreground)

/-- The colors of the scene attached to the figure returned by a
`figure` call. -/
def colorsOfResult (r : FigureResult) : Option (Color × Color) :=
  r.ret.bind (sceneColorsAt r.engine)

/-- The name of the scene object returned by a `figure` call. -/
def nameOfResult (r : FigureResult) : Option String :=
  (r.ret.bind (r.engine.scenes[·]?)).map SceneObj.name

/-! ### List and engine lemmas -/

lemma updateAt_getElem?_self {α : Type} (l : List α) (i : ℕ) (f : α → α) :
    (updateAt l i f)[i]? = (l[i]?).map f := by
  induction l generalizing i with
  | nil => simp [updateAt]
  | cons x xs ih =>
      cases i with
      | zero => simp [updateAt]
      | succ n => simpa [updateAt] using ih n

lemma updateAt_getElem?_ne {α : Type} (l : List α) (i j : ℕ) (f : α → α)
    (h : i ≠ j) : (updateAt l i f)[j]? = l[j]? := by
  induction l generalizing i j with
  | nil => simp [updateAt]
  | cons x xs ih =>
      cases i with
      | zero =>
          cases j with
          | zero => exact absurd rfl h
          | succ m => simp [updateAt]
      | succ n =>
          cases j with
          | zero => simp [updateAt]
          | succ m => simpa [updateAt] using ih n m (by omega)

lemma getElem?_append_len {α : Type} (l : List α) (x : α) :
    (l ++ [x])[l.length]? = some x := by
  induction l with
  | nil => rfl
  | cons a as ih => simp [ih]

lemma setSceneAt_current (e : Engine) (i : ℕ) (f : SceneObj → SceneObj) :
    (e.setSceneAt i f).current_scene = e.current_scene := rfl

lemma setCurrentName_current (e : Engine) (nm : String) :
    (e.setCurrentName nm).current_scene = e.current_scene := by
  unfold Engine.setCurrentName
  split
  · rfl
  · rw [setSceneAt_current]

lemma applyColors_current (opts : MlabOptions) (bg fg : Option Color)
    (e : Engine) : (applyColors opts bg fg e).current_scene = e.current_scene := by
  unfold applyColors
  split
  · rfl
  · split
    · rfl
    · split
      · rfl
      · rw [setSceneAt_current]

lemma setSceneAt_name (e : Engine) (j : ℕ) (f : SceneObj → SceneObj)
    (hf : ∀ so, (f so).name = so.name) (i : ℕ) :
    ((e.setSceneAt j f).scenes[i]?).map SceneObj.name =
      (e.scenes[i]?).map SceneObj.name := by
  by_cases h : j = i
  · subst h
    show ((updateAt e.scenes j f)[j]?).map SceneObj.name = _
    rw [updateAt_getElem?_self]
    cases e.scenes[j]? with
    | none => rfl
    | some fig => simp [hf]
  · show ((updateAt e.scenes j f)[i]?).map SceneObj.name = _
    rw [updateAt_getElem?_ne _ _ _ _ h]

lemma applyColors_name (opts : MlabOptions) (bg fg : Option Color)
    (e : Engine) (i : ℕ) :
    ((applyColors opts bg fg e).scenes[i]?).map SceneObj.name =
      (e.scenes[i]?).map SceneObj.name := by
  unfold applyColors
  split
  · rfl
  · split
    · rfl
    · split
      · rfl
      · apply setSceneAt_name
        exact fun so => rfl

lemma new_scene_setName_current (e : Engine) (fresh : SceneObj) (nm : String) :
    ((e.new_scene fresh).setCurrentName nm).current_scene =
      some e.scenes.length := by
  rw [setCurrentName_current]; rfl

lemma new_scene_setName_get (e : Engine) (fresh : SceneObj) (nm : String) :
    ((e.new_scene fresh).setCurrentName nm).scenes[e.scenes.length]? =
      some { fresh with name := nm } := by
  show (updateAt ((e.new_scene fresh).scenes) e.scenes.length _)[e.scenes.length]? = _
  rw [updateAt_getElem?_self]
  show ((e.scenes ++ [fresh])[e.scenes.length]?).map _ = _
  rw [getElem?_append_len]
  rfl

lemma createScene_current (opts : MlabOptions) (bg fg : Option Color)
    (e : Engine) (fresh : SceneObj) (nm : String) :
    (createScene opts bg fg e fresh nm).current_scene =
      some e.scenes.length := by
  unfold createScene
  rw [applyColors_current, new_scene_setName_current]

lemma createScene_name (opts : MlabOptions) (bg fg : Option Color)
    (e : Engine) (fresh : SceneObj) (nm : String) :
    ((createScene opts bg fg e fresh nm).scenes[e.scenes.length]?).map
        SceneObj.name = some nm := by
  unfold createScene
  rw [applyColors_name, new_scene_setName_get]
  rfl

lemma applyColors_colors (opts : MlabOptions) (bg fg : Option Color)
    (e : Engine) (i : ℕ) (fig : SceneObj) (sc : VTKScene)
    (hc : e.current_scene = some i) (hs : e.scenes[i]? = some fig)
    (hsc : fig.scene = some sc) :
    sceneColorsAt (applyColors opts bg fg e) i =
      some (bg.getD opts.background_color, fg.getD opts.foreground_color) := by
  unfold applyColors
  simp only [hc, hs, hsc]
  unfold sceneColorsAt
  simp only [Engine.setSceneAt]
  rw [updateAt_getElem?_self, hs]
  rfl

lemma createScene_colors (opts : MlabOptions) (bg fg : Option Color)
    (e : Engine) (fresh : SceneObj) (nm : String) (sc : VTKScene)
    (hf : fresh.scene = some sc) :
    sceneColorsAt (createScene opts bg fg e fresh nm) e.scenes.length =
      some (bg.getD opts.background_color, fg.getD opts.foreground_color) := by
  unfold createScene
  exact applyColors_colors opts bg fg _ _ { fresh with name := nm } sc
    (new_scene_setName_current e fresh nm) (new_scene_setName_get e fresh nm) hf

/-! ### Scene-number set lemmas -/

lemma le_maxSNL {s : Finset ℤ} {x : ℤ} (hx : x ∈ s) : x ≤ maxSNL s := by
  obtain ⟨m, hm⟩ := Finset.max_of_mem hx
  have h := Finset.le_max hx
  rw [hm] at h
  rw [maxSNL, hm, WithBot.unbot'_coe]
  exact_mod_cast h

lemma maxSNL_mem {s : Finset ℤ} (hs : s.Nonempty) : maxSNL s ∈ s := by
  obtain ⟨x, hx⟩ := hs
  obtain ⟨m, hm⟩ := Finset.max_of_mem hx
  rw [maxSNL, hm, WithBot.unbot'_coe]
  exact Finset.mem_of_max hm

lemma maxSNL_mono {s t : Finset ℤ} (hs : s.Nonempty) (hsub : s ⊆ t) :
    maxSNL s ≤ maxSNL t := le_maxSNL (hsub (maxSNL_mem hs))

lemma subset_snlStep (c : FigCall) (s : Finset ℤ) : s ⊆ snlStep c s := by
  cases c with
  | auto => exact Finset.subset_insert _ s
  | named n => exact Finset.subset_insert _ s

lemma snlStep_nonempty (c : FigCall) {s : Finset ℤ} (hs : s.Nonempty) :
    (snlStep c s).Nonempty := hs.mono (subset_snlStep c s)

lemma runCalls_gt (calls : List FigCall) (s : Finset ℤ) (hs : s.Nonempty) :
    ∀ x ∈ (runCalls calls s).1, maxSNL s < x := by
  induction calls generalizing s with
  | nil => simp [runCalls]
  | cons c cs ih =>
      have hmono : maxSNL s ≤ maxSNL (snlStep c s) :=
        maxSNL_mono hs (subset_snlStep c s)
      intro x hx
      cases c with
      | auto =>
          rw [runCalls] at hx
          rcases List.mem_cons.mp hx with rfl | hx'
          · exact lt_add_one (maxSNL s)
          · exact lt_of_le_of_lt hmono (ih _ (snlStep_nonempty _ hs) x hx')
      | named n =>
          rw [runCalls] at hx
          exact lt_of_le_of_lt hmono (ih _ (snlStep_nonempty _ hs) x hx)

lemma runCalls_pairwise_lt (calls : List FigCall) (s : Finset ℤ)
    (hs : s.Nonempty) : List.Pairwise (· < ·) (runCalls calls s).1 := by
  induction calls generalizing s with
  | nil => simp [runCalls]
  | cons c cs ih =>
      cases c with
      | auto =>
          rw [runCalls]
          refine List.Pairwise.cons ?_ (ih _ (snlStep_nonempty _ hs))
          intro x hx
          have hgt := runCalls_gt cs (snlStep .auto s) (snlStep_nonempty _ hs) x hx
          have hle : autoNumber s ≤ maxSNL (snlStep .auto s) :=
            le_maxSNL (Finset.mem_insert_self _ s)
          exact lt_of_le_of_lt hle hgt
      | named n =>
          rw [runCalls]
          exact ih _ (snlStep_nonempty _ hs)

/-! ### Search-loop lemmas -/

lemma findSceneLoop_spec (scenes : List SceneObj) (nm : String) (i : ℕ)
    (h : findSceneLoop scenes nm = some i) :
    (∃ sc, scenes[i]? = some sc ∧ sc.name = nm) ∧
      ∀ j, j < i → ∀ sc, scenes[j]? = some sc → sc.name ≠ nm := by
  induction scenes generalizing i with
  | nil => simp [findSceneLoop] at h
  | cons x xs ih =>
      by_cases hx : x.name = nm
      · rw [findSceneLoop, if_pos hx] at h
        obtain rfl : (0 : ℕ) = i := Option.some_injective _ h
        exact ⟨⟨x, by simp, hx⟩, fun j hj => absurd hj (by omega)⟩
      · rw [findSceneLoop, if_neg hx] at h
        obtain ⟨k, hk, rfl⟩ := Option.map_eq_some'.mp h
        obtain ⟨⟨sc, hsc, hname⟩, hfirst⟩ := ih k hk
        refine ⟨⟨sc, by simpa using hsc, hname⟩, ?_⟩
        intro j hj sc' hsc'
        cases j with
        | zero =>
            obtain rfl : x = sc' := by simpa using hsc'
            exact hx
        | succ m => exact hfirst m (by omega) sc' (by simpa using hsc')

lemma findSceneLoop_exists (scenes : List SceneObj) (nm : String)
    (h : ∃ sc ∈ scenes, sc.name = nm) :
    ∃ i, findSceneLoop scenes nm = some i := by
  induction scenes with
  | nil => simp at h
  | cons x xs ih =>
      by_cases hx : x.name = nm
      · exact ⟨0, by rw [findSceneLoop, if_pos hx]⟩
      · obtain ⟨sc, hmem, hname⟩ := h
        rcases List.mem_cons.mp hmem with rfl | hmem'
        · exact absurd hname hx
        · obtain ⟨i, hi⟩ := ih ⟨sc, hmem', hname⟩
          exact ⟨i + 1, by rw [findSceneLoop, if_neg hx, hi]; rfl⟩

/-! ### Bridge lemmas from `createScene` to `figure` results -/

lemma nameOf_createScene (opts : MlabOptions) (bg fg : Option Color)
    (e : Engine) (fresh : SceneObj) (nm : String) (s : Finset ℤ) (b : Bool) :
    nameOfResult ⟨createScene opts bg fg e fresh nm, s,
        (createScene opts bg fg e fresh nm).current_scene, b⟩ = some nm := by
  unfold nameOfResult
  show ((createScene opts bg fg e fresh nm).current_scene.bind
      ((createScene opts bg fg e fresh nm).scenes[·]?)).map SceneObj.name = some nm
  rw [createScene_current]
  exact createScene_name opts bg fg e fresh nm

lemma colorsOf_createScene (opts : MlabOptions) (bg fg : Option Color)
    (e : Engine) (fresh : SceneObj) (nm : String) (s : Finset ℤ) (b : Bool)
    (sc : VTKScene) (hf : fresh.scene = some sc) :
    colorsOfResult ⟨createScene opts bg fg e fresh nm, s,
        (createScene opts bg fg e fresh nm).current_scene, b⟩ =
      some (bg.getD opts.background_color, fg.getD opts.foreground_color) := by
  unfold colorsOfResult
  show (createScene opts bg fg e fresh nm).current_scene.bind
      (sceneColorsAt (createScene opts bg fg e fresh nm)) = _
  rw [createScene_current]
  exact createScene_colors opts bg fg e fresh nm sc hf

lemma savefig_snl (opts : MlabOptions) (filename : String)
    (size : Option (ℕ × ℕ)) (kwargs : List (String × String)) (e : Engine)
    (fresh : SceneObj) (snl : Finset ℤ) (fig : Option ℕ) :
    (savefig opts filename size kwargs e fresh snl fig).snl =
      (savefigTarget opts e fresh snl fig).snl := by
  unfold savefig
  dsimp only
  split <;> rfl

/-! ### Concrete fixtures used by witnesses and counterexamples -/

/-- A concrete options object. -/
def optsW : MlabOptions := ⟨(7,7,7), (8,8,8)⟩

/-- A concrete fresh scene object with an attached renderer scene. -/
def freshW : SceneObj := ⟨"fresh", some ⟨(1,1,1), (2,2,2), false⟩, []⟩

/-- An engine holding one scene named `"s"` (colors `(3,3,3)`/`(4,4,4)`)
and no current scene. -/
def engineW : Engine := ⟨[⟨"s", some ⟨(3,3,3), (4,4,4), false⟩, [9]⟩], none⟩

/-- The same engine with the scene `"s"` current. -/
def engineCur : Engine := ⟨[⟨"s", some ⟨(3,3,3), (4,4,4), false⟩, [9]⟩], some 0⟩

/-- An engine with no scenes and no current scene. -/
def emptyEngine : Engine := ⟨[], none⟩

/-! ### Claim theorems -/

/-- C10: `figure` always returns the engine's current scene: on the
auto-name path, the retrieve-existing path and the create-named path
alike, the returned scene is `engine.current_scene` at the time of
return. -/
theorem figure_returns_current_scene (opts : MlabOptions)
    (name : Option FigName) (bg fg : Option Color) (e : Engine)
    (fresh : SceneObj) (snl : Finset ℤ) :
    (figure opts name bg fg e fresh snl).ret =
      (figure opts name bg fg e fresh snl).engine.current_scene := by
  unfold figure
  cases name with
  | none => rfl
  | some arg =>
      dsimp only
      split
      · rfl
      · rfl

/-- C1: auto-generated scene names are unique and monotonically
increasing.  A `figure` call with `name=None` updates the scene-number
set by inserting `max(set) + 1` and names the created scene
`'Mayavi Scene %d'` with that number; an explicitly integer-named call
inserts its integer.  Hence across any sequence of `figure` calls
starting from a nonempty set (the set always contains `0`), the numbers
assigned by the auto-named calls are strictly increasing and pairwise
distinct, even with explicitly integer-named calls interleaved. -/
theorem auto_scene_numbers_unique_increasing :
    (∀ opts bg fg e fresh snl,
        (figure opts none bg fg e fresh snl).snl = snlStep FigCall.auto snl ∧
        nameOfResult (figure opts none bg fg e fresh snl) =
          some (mayaviSceneName (autoNumber snl))) ∧
    (∀ opts bg fg e fresh snl n,
        (figure opts (some (FigName.int n)) bg fg e fresh snl).snl =
          snlStep (FigCall.named n) snl) ∧
    (∀ calls s, s.Nonempty →
        List.Pairwise (· < ·) (runCalls calls s).1 ∧
        List.Pairwise (· ≠ ·) (runCalls calls s).1) := by
  refine ⟨?_, ?_, ?_⟩
  · intro opts bg fg e fresh snl
    exact ⟨rfl, nameOf_createScene opts bg fg e fresh
      (mayaviSceneName (autoNumber snl)) (insert (autoNumber snl) snl) true⟩
  · intro opts bg fg e fresh snl n
    unfold figure
    dsimp only
    split
    · rfl
    · rfl
  · intro calls s hs
    refine ⟨runCalls_pairwise_lt calls s hs, ?_⟩
    exact (runCalls_pairwise_lt calls s hs).imp (fun h => ne_of_lt h)

/-- Witness for C1 at the initial set `set((0,))` and the call sequence
auto, named 7, auto. -/
theorem auto_scene_numbers_unique_increasing_witness :
    List.Pairwise (· < ·)
        (runCalls [FigCall.auto, FigCall.named 7, FigCall.auto]
          sceneNumberListInit).1 ∧
    List.Pairwise (· ≠ ·)
        (runCalls [FigCall.auto, FigCall.named 7, FigCall.auto]
          sceneNumberListInit).1 :=
  auto_scene_numbers_unique_increasing.2.2
    [FigCall.auto, FigCall.named 7, FigCall.auto] sceneNumberListInit
    ⟨0, by decide⟩

/-- C2: `figure` retrieves an existing scene by (normalised) name: if
some scene in `engine.scenes` has the name, the call makes the first
such scene current and returns it, without calling `engine.new_scene`
(and without touching the scene list). -/
theorem figure_retrieves_existing_scene (opts : MlabOptions)
    (bg fg : Option Color) (e : Engine) (fresh : SceneObj) (snl : Finset ℤ)
    (arg : FigName) (h : ∃ sc ∈ e.scenes, sc.name = normName arg) :
    ∃ i, figure opts (some arg) bg fg e fresh snl =
        ⟨{ e with current_scene := some i }, nameSnlUpdate arg snl,
          some i, false⟩ ∧
      (∃ sc, e.scenes[i]? = some sc ∧ sc.name = normName arg) ∧
      ∀ j, j < i → ∀ sc, e.scenes[j]? = some sc → sc.name ≠ normName arg := by
  obtain ⟨i, hi⟩ := findSceneLoop_exists e.scenes (normName arg) h
  obtain ⟨hfound, hfirst⟩ := findSceneLoop_spec _ _ _ hi
  refine ⟨i, ?_, hfound, hfirst⟩
  unfold figure
  simp only [hi]

/-- Witness for C2: retrieving the scene named `"s"` from `engineW`. -/
theorem figure_retrieves_existing_scene_witness :
    ∃ i, figure optsW (some (FigName.str "s")) none none engineW freshW
        sceneNumberListInit =
        ⟨{ engineW with current_scene := some i },
          nameSnlUpdate (FigName.str "s") sceneNumberListInit, some i, false⟩ ∧
      (∃ sc, engineW.scenes[i]? = some sc ∧
        sc.name = normName (FigName.str "s")) ∧
      ∀ j, j < i → ∀ sc, engineW.scenes[j]? = some sc →
        sc.name ≠ normName (FigName.str "s") :=
  figure_retrieves_existing_scene optsW none none engineW freshW
    sceneNumberListInit (FigName.str "s")
    ⟨⟨"s", some ⟨(3,3,3), (4,4,4), false⟩, [9]⟩, by simp [engineW], rfl⟩

/-- C3 counterexample: retrieving the existing scene named `"s"` (whose
colors are `(3,3,3)`/`(4,4,4)`) with explicit `bgcolor=(5,5,5)` and
`fgcolor=(6,6,6)` returns a figure whose attached scene is not `None`,
yet its colors are unchanged: the retrieval path returns before the
color-defaulting block of `figure`. -/
theorem figure_colors_retrieval_cex :
    colorsOfResult (figure optsW (some (FigName.str "s")) (some (5,5,5))
        (some (6,6,6)) engineW freshW sceneNumberListInit) =
      some ((3,3,3), (4,4,4)) ∧
    colorsOfResult (figure optsW (some (FigName.str "s")) (some (5,5,5))
        (some (6,6,6)) engineW freshW sceneNumberListInit) ≠
      some ((5,5,5), (6,6,6)) := by decide

/-- C3 (amended): `figure` defaults the background and foreground colors
on the creation paths only.  When the fresh scene object has an attached
renderer scene, a `name=None` call and a named call finding no existing
scene both leave the created scene with background
`bgcolor` (or `options.background_color` when `bgcolor` is `None`) and
foreground `fgcolor` (or `options.foreground_color`); on the
retrieval-of-an-existing-scene path the scene list, and hence every
scene's colors, is unchanged. -/
theorem figure_colors_defaulted_on_creation (opts : MlabOptions)
    (bg fg : Option Color) (e : Engine) (fresh : SceneObj) (snl : Finset ℤ)
    (sc : VTKScene) (hf : fresh.scene = some sc) :
    colorsOfResult (figure opts none bg fg e fresh snl) =
      some (bg.getD opts.background_color, fg.getD opts.foreground_color) ∧
    (∀ arg, findSceneLoop e.scenes (normName arg) = none →
      colorsOfResult (figure opts (some arg) bg fg e fresh snl) =
        some (bg.getD opts.background_color, fg.getD opts.foreground_color)) ∧
    (∀ arg i, findSceneLoop e.scenes (normName arg) = some i →
      (figure opts (some arg) bg fg e fresh snl).engine.scenes = e.scenes) := by
  refine ⟨?_, ?_, ?_⟩
  · exact colorsOf_createScene opts bg fg e fresh
      (mayaviSceneName (autoNumber snl)) (insert (autoNumber snl) snl) true sc hf
  · intro arg harg
    unfold figure
    simp only [harg]
    exact colorsOf_createScene opts bg fg e fresh (normName arg)
      (nameSnlUpdate arg snl) true sc hf
  · intro arg i harg
    unfold figure
    simp only [harg]

/-- Witness for C3 (amended): creating an auto-named scene in the empty
engine with `bgcolor=(5,5,5)` and `fgcolor=None` yields colors
`(5,5,5)` and `optsW.foreground_color = (8,8,8)`. -/
theorem figure_colors_defaulted_on_creation_witness :
    colorsOfResult (figure optsW none (some (5,5,5)) none emptyEngine freshW
        sceneNumberListInit) = some ((5,5,5), (8,8,8)) :=
  (figure_colors_defaulted_on_creation optsW (some (5,5,5)) none emptyEngine
      freshW sceneNumberListInit ⟨(1,1,1), (2,2,2), false⟩ rfl).1

/-- C4: clearing leaves the figure empty: when the target's `scene`
attribute is present and not `None` and it has a `children` attribute
(so every attribute access in the clear sequence succeeds), `clf`
leaves the children list empty. -/
theorem clf_leaves_children_empty (t : ClfTarget) (sc : VTKScene)
    (cs : List ℕ) (hs : t.scene = some (some sc))
    (hc : t.children = some cs) :
    (clfOn t).children = some ([] : List ℕ) := by
  simp [clfOn, clfTry, hs, hc]

/-- Witness for C4 on a target with children `[1, 2]`. -/
theorem clf_leaves_children_empty_witness :
    (clfOn ⟨some (some ⟨(0,0,0), (0,0,0), false⟩), some [1, 2]⟩).children =
      some ([] : List ℕ) :=
  clf_leaves_children_empty ⟨some (some ⟨(0,0,0), (0,0,0), false⟩), some [1, 2]⟩
    ⟨(0,0,0), (0,0,0), false⟩ [1, 2] rfl rfl

/-- C5 counterexample: a target whose attached scene has
`disable_render = False` but which lacks the `children` attribute: `clf`
sets the flag to `True`, the `children` access raises `AttributeError`,
the handler swallows it, and the flag is left `True` — not restored. -/
theorem clf_disable_render_restore_cex :
    (⟨some (some ⟨(0,0,0), (0,0,0), false⟩), none⟩ : ClfTarget).renderFlag =
      some false ∧
    (clfOn ⟨some (some ⟨(0,0,0), (0,0,0), false⟩), none⟩).renderFlag =
      some true := by decide

/-- C5 (amended): rendering is only temporarily disabled by clearing,
provided every attribute access in the clear sequence succeeds: when the
target's `scene` attribute is present and not `None` and the target has
a `children` attribute, `clf` leaves `disable_render` at `False`; if the
`children` access raises after the flag was set, the flag stays `True`. -/
theorem clf_restores_disable_render (t : ClfTarget) (sc : VTKScene)
    (cs : List ℕ) (hs : t.scene = some (some sc))
    (hc : t.children = some cs) :
    (clfOn t).renderFlag = some false := by
  simp [clfOn, clfTry, ClfTarget.renderFlag, hs, hc]

/-- Witness for C5 (amended) on a target with children present. -/
theorem clf_restores_disable_render_witness :
    (clfOn ⟨some (some ⟨(0,0,0), (0,0,0), false⟩), some [3]⟩).renderFlag =
      some false :=
  clf_restores_disable_render ⟨some (some ⟨(0,0,0), (0,0,0), false⟩), some [3]⟩
    ⟨(0,0,0), (0,0,0), false⟩ [3] rfl rfl

/-- C6: `clf` tolerates a target with no scene attached: for every
target, the `try` body either completes, or raises an `AttributeError`
which the handler swallows, `clf` returning normally with the state the
target had reached — the error never propagates. -/
theorem clf_swallows_attribute_error (t : ClfTarget) :
    ∃ s : ClfTarget, (clfTry t = Except.ok s ∨
        clfTry t = Except.error (PyErr.attributeError, s)) ∧ clfOn t = s := by
  cases h : clfTry t with
  | ok s => exact ⟨s, Or.inl rfl, by simp [clfOn, h]⟩
  | error p =>
      obtain ⟨err, s⟩ := p
      cases err
      exact ⟨s, Or.inr rfl, by simp [clfOn, h]⟩

/-- C7 counterexample: with no current scene, a bare `gcf` call changes
the scene-number set (it delegates to `figure`, which inserts
`max(set) + 1`), so it is not the case that every `gcf` call leaves the
set unchanged in every engine state. -/
theorem snl_preserved_by_gcf_cex :
    emptyEngine.current_scene = none ∧
    (gcf optsW emptyEngine freshW sceneNumberListInit).snl ≠
      sceneNumberListInit := by decide

/-- C7 (amended): the scene-number set is mutated only inside `figure`.
`gcf`, `clf`, `draw` and `savefig` leave it unchanged whenever they do
not delegate to `figure`: always when a figure argument is supplied,
and whenever the engine has a current scene; when the engine has no
current scene, a bare `gcf` call is exactly the delegated `figure`
call, whose insertion is the only mutation. -/
theorem snl_mutated_only_inside_figure :
    (∀ opts e fresh snl i, e.current_scene = some i →
        (gcf opts e fresh snl).snl = snl) ∧
    (∀ opts e fresh snl, e.current_scene = none →
        gcf opts e fresh snl = figure opts none none none e fresh snl) ∧
    (∀ opts e fresh snl i, (clfTop opts e fresh snl (some i)).snl = snl) ∧
    (∀ opts e fresh snl i, e.current_scene = some i →
        (clfTop opts e fresh snl none).snl = snl) ∧
    (∀ opts e fresh snl i, (draw opts e fresh snl (some i)).snl = snl) ∧
    (∀ opts e fresh snl i, e.current_scene = some i →
        (draw opts e fresh snl none).snl = snl) ∧
    (∀ opts filename size kwargs e fresh snl i,
        (savefig opts filename size kwargs e fresh snl (some i)).snl = snl) ∧
    (∀ opts filename size kwargs e fresh snl i, e.current_scene = some i →
        (savefig opts filename size kwargs e fresh snl none).snl = snl) := by
  refine ⟨?_, ?_, ?_, ?_, ?_, ?_, ?_, ?_⟩
  · intro opts e fresh snl i h
    unfold gcf
    simp only [h]
  · intro opts e fresh snl h
    unfold gcf
    simp only [h]
  · intro opts e fresh snl i
    rfl
  · intro opts e fresh snl i h
    unfold clfTop gcf
    simp only [h]
  · intro opts e fresh snl i
    rfl
  · intro opts e fresh snl i h
    unfold draw gcf
    simp only [h]
  · intro opts filename size kwargs e fresh snl i
    rw [savefig_snl]
    rfl
  · intro opts filename size kwargs e fresh snl i h
    rw [savefig_snl]
    unfold savefigTarget gcf
    simp only [h]

/-- Witness for C7 (amended): `gcf` on an engine whose scene 0 is
current leaves the set `set((0,))` unchanged. -/
theorem snl_mutated_only_inside_figure_witness :
    (gcf optsW engineCur freshW sceneNumberListInit).snl =
      sceneNumberListInit :=
  snl_mutated_only_inside_figure.1 optsW engineCur freshW
    sceneNumberListInit 0 rfl

/-- C8: `gcf` fetches the current scene or creates one if absent: with a
current scene it returns it and changes nothing; with none it is exactly
the `figure(engine=engine)` call, which calls `new_scene` and returns a
scene named with the fresh auto number. -/
theorem gcf_returns_current_or_creates :
    (∀ opts e fresh snl i, e.current_scene = some i →
        gcf opts e fresh snl = ⟨e, snl, some i, false⟩) ∧
    (∀ opts e fresh snl, e.current_scene = none →
        gcf opts e fresh snl = figure opts none none none e fresh snl ∧
        (gcf opts e fresh snl).newSceneCalled = true ∧
        nameOfResult (gcf opts e fresh snl) =
          some (mayaviSceneName (autoNumber snl))) := by
  constructor
  · intro opts e fresh snl i h
    unfold gcf
    simp only [h]
  · intro opts e fresh snl h
    have h1 : gcf opts e fresh snl = figure opts none none none e fresh snl := by
      unfold gcf
      simp only [h]
    refine ⟨h1, ?_, ?_⟩
    · rw [h1]
      rfl
    · rw [h1]
      exact nameOf_createScene opts none none e fresh
        (mayaviSceneName (autoNumber snl)) (insert (autoNumber snl) snl) true

/-- Witness for C8: `gcf` on `engineCur` returns its current scene 0. -/
theorem gcf_returns_current_or_creates_witness :
    gcf optsW engineCur freshW sceneNumberListInit =
      ⟨engineCur, sceneNumberListInit, some 0, false⟩ :=
  gcf_returns_current_or_creates.1 optsW engineCur freshW
    sceneNumberListInit 0 rfl

/-- C9: `savefig` delegates export to the scene's own save routine:
after defaulting the figure via `gcf` when `figure=None`, it makes at
most one save call; when the resolved figure's `scene` is present, it
makes exactly one, passing the filename (carrying the chosen extension),
the size and the extra keyword arguments through unchanged; when the
`scene` is missing, the attribute access raises and no call is made. -/
theorem savefig_delegates_to_scene_save (opts : MlabOptions)
    (filename : String) (size : Option (ℕ × ℕ))
    (kwargs : List (String × String)) (e : Engine) (fresh : SceneObj)
    (snl : Finset ℤ) (fig : Option ℕ) :
    ((savefig opts filename size kwargs e fresh snl fig).saved = none ∨
      (savefig opts filename size kwargs e fresh snl fig).saved =
        some ⟨filename, size, kwargs⟩) ∧
    (∀ sc, retScene (savefigTarget opts e fresh snl fig) = some sc →
      (savefig opts filename size kwargs e fresh snl fig).saved =
        some ⟨filename, size, kwargs⟩) ∧
    (retScene (savefigTarget opts e fresh snl fig) = none →
      (savefig opts filename size kwargs e fresh snl fig).saved = none) := by
  refine ⟨?_, ?_, ?_⟩
  · cases h : retScene (savefigTarget opts e fresh snl fig) with
    | none =>
        refine Or.inl ?_
        unfold savefig
        simp only [h]
    | some sc =>
        refine Or.inr ?_
        unfold savefig
        simp only [h]
  · intro sc h
    unfold savefig
    simp only [h]
  · intro h
    unfold savefig
    simp only [h]

/-- Witness for C9: saving scene 0 of `engineW` emits one save call with
the given filename, size and keyword arguments. -/
theorem savefig_delegates_to_scene_save_witness :
    (savefig optsW "snapshot.png" (some (400, 350)) [("magnification", "2")]
        engineW freshW sceneNumberListInit (some 0)).saved =
      some ⟨"snapshot.png", some (400, 350), [("magnification", "2")]⟩ :=
  (savefig_delegates_to_scene_save optsW "snapshot.png" (some (400, 350))
      [("magnification", "2")] engineW freshW sceneNumberListInit
      (some 0)).2.1 ⟨(3,3,3), (4,4,4), false⟩ (by decide)
